import Mathlib

/-!
Shallow embedding of the weather backend service (`src/app/main.py`).

Calendar dates are modelled as integers (day numbers); `date.today()` is the
`today` field of the environment, and `timedelta(days = n)` is `+ n`.
The persistence layer (`app.crud`, not under `src/`) is modelled from the
spec as an in-memory store of `WeatherLocation` and `WeatherInfo` rows.
The two external providers (`app.weather_api`, `app.youtube_api`) are
collaborators: they appear as function-valued fields of the environment,
and every call made to them is recorded in a call trace so that theorems
can speak about which provider operations an endpoint triggers.
-/

/-- A stored location row (`database_model.WeatherLocation`):
id, city, optional country, latitude, longitude. -/
structure WeatherLocation where
  id : Nat
  city : String
  country : Option String
  lat : Int
  lon : Int
deriving Repr, DecidableEq

/-- A stored weather-info row (`database_model.WeatherInfo`): id, reference to
its location, date, temperature, description, optional raw payload. -/
structure WeatherInfo where
  id : Nat
  locationId : Nat
  date : Int
  temperature : Int
  weatherDescription : String
  rawData : Option String
deriving Repr, DecidableEq

/-- The persistence collaborator state: the two tables plus the next
auto-generated identifier for each. -/
structure DB where
  locations : List WeatherLocation
  infos : List WeatherInfo
  nextLocId : Nat
  nextInfoId : Nat
deriving Repr, DecidableEq

/-- The empty database. -/
def DB.empty : DB := ⟨[], [], 1, 1⟩

/-- A weather-provider response, holding the fields the orchestration code
reads: `coord.lat`, `coord.lon`, `main.temp`, `weather[0].description`. -/
structure ApiResp where
  coordLat : Int
  coordLon : Int
  mainTemp : Int
  weatherDescription : String
deriving Repr, DecidableEq

/-- One call made to the weather provider collaborator:
`get_weather_by_city(city, country)` or
`get_forecast_by_date_and_city(date, city, country)`. -/
inductive ProviderCall where
  | currentWeather (city : String) (country : Option String)
  | forecast (date : Int) (city : String) (country : Option String)
deriving Repr, DecidableEq

/-- An `HTTPException(status_code, detail)` raised by an endpoint. -/
structure HTTPError where
  status : Nat
  detail : String
deriving Repr, DecidableEq

/-- Outcome of running one endpoint: the response or the raised error, the
database state afterwards, and the trace of provider calls made. -/
structure RunResult (α : Type) where
  out : Except HTTPError α
  db : DB
  calls : List ProviderCall

/-- The ambient environment: the current date and the external collaborators
(`date.fromisoformat` as `parseDate`, returning `none` on `ValueError`, and
the two weather-provider operations as pure functions). -/
structure Env where
  today : Int
  parseDate : String → Option Int
  get_weather_by_city : String → Option String → ApiResp
  get_forecast_by_date_and_city : Int → String → Option String → ApiResp

/-- Python truthiness of an optional string (`not x` is true for `None` and
for the empty string). -/
def truthyStr : Option String → Bool
  | none => false
  | some v => !(v == "")

/-- Python truthiness of an optional number (`not x` is true for `None` and
for zero). -/
def truthyNum : Option Int → Bool
  | none => false
  | some n => !(n == 0)

/-- The partial-update payload accepted by the weather-info update endpoint:
each field is `some v` when the key appears in the request dictionary and
`none` when it is omitted. -/
structure InfoUpdates where
  temperature : Option Int
  weatherDescription : Option String
  rawData : Option String
deriving Repr, DecidableEq

namespace Crud

/-- Modelled from the spec: `crud.get_location_by_city` (module `app.crud` is
not under `src/`); the persistence collaborator retrieves a location keyed by
its (city, country) pair. -/
def get_location_by_city (db : DB) (city : String) (country : Option String) :
    Option WeatherLocation :=
  db.locations.find? (fun l => l.city == city && l.country == country)

/-- Modelled from the spec: `crud.create_location` (module `app.crud` is not
under `src/`); the persistence collaborator inserts a new location row with a
system-generated identifier and returns it. -/
def create_location (db : DB) (city : String) (country : Option String)
    (lat lon : Int) : WeatherLocation × DB :=
  let loc : WeatherLocation := ⟨db.nextLocId, city, country, lat, lon⟩
  (loc, { db with locations := db.locations ++ [loc],
                  nextLocId := db.nextLocId + 1 })

/-- Modelled from the spec: `crud.get_info_by_loc_date` (module `app.crud` is
not under `src/`); the persistence collaborator retrieves the weather info for
a (location, date) pair. -/
def get_info_by_loc_date (db : DB) (locationId : Nat) (date : Int) :
    Option WeatherInfo :=
  db.infos.find? (fun i => i.locationId == locationId && i.date == date)

/-- Modelled from the spec: `crud.get_info` (module `app.crud` is not under
`src/`); the persistence collaborator retrieves a weather info by identifier. -/
def get_info (db : DB) (infoId : Nat) : Option WeatherInfo :=
  db.infos.find? (fun i => i.id == infoId)

/-- Modelled from the spec: `crud.create_info` (module `app.crud` is not under
`src/`); the persistence collaborator inserts a new weather-info row with a
system-generated identifier.  The caller in `main.create_info` passes no
`raw_data` (that argument is commented out in the source), so the stored
`rawData` is `none`. -/
def create_info (db : DB) (locationId : Nat) (infoDate : Int)
    (temperature : Int) (weatherDescription : String) : WeatherInfo × DB :=
  let info : WeatherInfo :=
    ⟨db.nextInfoId, locationId, infoDate, temperature, weatherDescription, none⟩
  (info, { db with infos := db.infos ++ [info],
                   nextInfoId := db.nextInfoId + 1 })

/-- Modelled from the spec: `crud.update_info` (module `app.crud` is not under
`src/`); the persistence collaborator applies a partial update restricted to
{temperature, weather description, raw data}: fields not named in the payload
keep their previous values; an unknown identifier changes nothing and yields
`none`. -/
def update_info (db : DB) (infoId : Nat) (updates : InfoUpdates) :
    Option WeatherInfo × DB :=
  match db.infos.find? (fun i => i.id == infoId) with
  | none => (none, db)
  | some info =>
    let updated : WeatherInfo :=
      { info with
        temperature := updates.temperature.getD info.temperature,
        weatherDescription :=
          updates.weatherDescription.getD info.weatherDescription,
        rawData :=
          match updates.rawData with
          | some v => some v
          | none => info.rawData }
    (some updated,
     { db with infos := db.infos.map (fun i => if i.id == infoId then updated else i) })

end Crud

/-- Request body of `POST /locations/`: the dictionary keys the endpoint
reads, each `none` when absent. -/
structure LocPayload where
  city : Option String
  country : Option String
  lat : Option Int
  lon : Option Int
deriving Repr, DecidableEq

/-- Endpoint `POST /locations/` (`main.create_location`, src/app/main.py lines 20-60):
requires a truthy city; when `lat` or `lon` is falsy (absent, null or zero)
both coordinates are fetched from the weather provider; fails when a location
with the same (city, country) already exists; otherwise persists and returns
the new row. -/
def create_location (env : Env) (location : LocPayload) (db : DB) :
    RunResult WeatherLocation :=
  let city := location.city
  let country := location.country
  let lat := location.lat
  let lon := location.lon
  if !(truthyStr city) then ⟨.error ⟨400, "city is required"⟩, db, []⟩
  else
    let c := city.getD ""
    let fetched :=
      if !(truthyNum lat) || !(truthyNum lon) then
        let data := env.get_weather_by_city c country
        (data.coordLat, data.coordLon, [ProviderCall.currentWeather c country])
      else
        (lat.getD 0, lon.getD 0, ([] : List ProviderCall))
    match Crud.get_location_by_city db c country with
    | some _ => ⟨.error ⟨400, "Location already exists"⟩, db, fetched.2.2⟩
    | none =>
      let r := Crud.create_location db c country fetched.1 fetched.2.1
      ⟨.ok r.1, r.2, fetched.2.2⟩

/-- Request body of `POST /weather_infos/`: the dictionary keys the endpoint
reads, each `none` when absent. -/
structure InfoPayload where
  city : Option String
  country : Option String
  start_date : Option String
  end_date : Option String
deriving Repr, DecidableEq

/-- Body of the per-date ingestion loop (src/app/main.py lines 168-188): on a
cache hit the stored row is reused with no provider call; on a miss the
current weather is fetched when the date is today and the forecast for that
date otherwise, and the extracted temperature and description are stored as a
new row (the computed `raw = str(info_data)` is never passed on: the
`raw_data` argument is commented out in the source). -/
def processDate (env : Env) (loc : WeatherLocation) (city : String)
    (country : Option String) (current : Int) (db : DB) :
    WeatherInfo × DB × List ProviderCall :=
  match Crud.get_info_by_loc_date db loc.id current with
  | some info => (info, db, [])
  | none =>
    let fetched :=
      if current == env.today then
        (env.get_weather_by_city city country,
         ProviderCall.currentWeather city country)
      else
        (env.get_forecast_by_date_and_city current city country,
         ProviderCall.forecast current city country)
    let temp := fetched.1.mainTemp
    let desc := fetched.1.weatherDescription
    let r := Crud.create_info db loc.id current temp desc
    (r.1, r.2, [fetched.2])

/-- The `while current <= end` loop of `main.create_info` (src/app/main.py
lines 165-189), with an explicit iteration budget: the caller supplies
`fuel = (endD + 1 - current).toNat`, the exact number of iterations the
source loop performs, and the loop guard is re-checked on every step just as
in the source. -/
def ingestLoop (env : Env) (loc : WeatherLocation) (city : String)
    (country : Option String) :
    Nat → Int → Int → DB → List WeatherInfo × DB × List ProviderCall
  | 0, _, _, db => ([], db, [])
  | fuel + 1, current, endD, db =>
    if current > endD then ([], db, [])
    else
      let r1 := processDate env loc city country current db
      let r2 := ingestLoop env loc city country fuel (current + 1) endD r1.2.1
      (r1.1 :: r2.1, r2.2.1, r1.2.2 ++ r2.2.2)

/-- The post-validation part of `main.create_info` (src/app/main.py lines
157-190): resolve or create the location (coordinates from the provider when
creating), then run the per-date loop over the inclusive range. -/
def ingestBody (env : Env) (city : String) (country : Option String)
    (start endD : Int) (db : DB) : RunResult (List WeatherInfo) :=
  let locR :=
    match Crud.get_location_by_city db city country with
    | some l => (l, db, ([] : List ProviderCall))
    | none =>
      let data := env.get_weather_by_city city country
      let r := Crud.create_location db city country data.coordLat data.coordLon
      (r.1, r.2, [ProviderCall.currentWeather city country])
  let loopR :=
    ingestLoop env locR.1 city country (endD + 1 - start).toNat start endD locR.2.1
  ⟨.ok loopR.1, loopR.2.1, locR.2.2 ++ loopR.2.2⟩

/-- Endpoint `POST /weather_infos/` (`main.create_info`, src/app/main.py lines
110-190): the validation chain (required fields, date parsing, range order,
no historical dates, 5-day forecast horizon), then the ingestion body. -/
def create_info (env : Env) (input : InfoPayload) (db : DB) :
    RunResult (List WeatherInfo) :=
  let city := input.city
  let country := input.country
  let start_date := input.start_date
  let end_date := input.end_date
  if !(truthyStr city) || !(truthyStr start_date) || !(truthyStr end_date) then
    ⟨.error ⟨400, "city, start_date, and end_date are required"⟩, db, []⟩
  else
    match env.parseDate (start_date.getD ""), env.parseDate (end_date.getD "") with
    | some start, some endD =>
      if start > endD then
        ⟨.error ⟨400, "start_date must be before end_date"⟩, db, []⟩
      else if start < env.today || endD < env.today then
        ⟨.error ⟨400, "Historical data is not supported in free OpenWeather API"⟩, db, []⟩
      else if start > env.today + 5 || endD > env.today + 5 then
        ⟨.error ⟨400, "Max 5 days forecast supported in free OpenWeather API"⟩, db, []⟩
      else ingestBody env (city.getD "") country start endD db
    | _, _ => ⟨.error ⟨400, "Invalid date format. Use YYYY-MM-DD"⟩, db, []⟩

/-- Endpoint `PUT /weather_infos/{info_id}` (`main.update_info`, src/app/main.py lines
237-259): delegates to the persistence collaborator and raises 404 when the
identifier does not resolve. -/
def update_info (db : DB) (infoId : Nat) (updates : InfoUpdates) :
    RunResult WeatherInfo :=
  let r := Crud.update_info db infoId updates
  match r.1 with
  | none => ⟨.error ⟨404, "Weather info not found"⟩, r.2, []⟩
  | some info => ⟨.ok info, r.2, []⟩

/-- A concrete collaborator environment for exercising the endpoints: day 0 is
today, the parser recognises the six ISO dates of the current forecast window,
and the provider answers with fixed data. -/
def envLondon : Env where
  today := 0
  parseDate := fun s =>
    if s == "2025-08-01" then some 0
    else if s == "2025-08-02" then some 1
    else if s == "2025-08-03" then some 2
    else if s == "2025-08-04" then some 3
    else if s == "2025-08-05" then some 4
    else if s == "2025-08-06" then some 5
    else if s == "2025-07-31" then some (-1)
    else if s == "2025-08-07" then some 6
    else none
  get_weather_by_city := fun _ _ => ⟨51, 0, 15, "clear sky"⟩
  get_forecast_by_date_and_city := fun d _ _ => ⟨0, 0, 10 + d, "scattered clouds"⟩

section Lemmas

/-- The row returned for a date by the loop body carries that date. -/
theorem processDate_date (env : Env) (loc : WeatherLocation) (city : String)
    (country : Option String) (current : Int) (db : DB) :
    (processDate env loc city country current db).1.date = current := by
  unfold processDate
  cases h : Crud.get_info_by_loc_date db loc.id current with
  | none => simp [Crud.create_info]
  | some info =>
    have hp := List.find?_some h
    simp only [Bool.and_eq_true, beq_iff_eq] at hp
    simpa using hp.2

/-- The row returned for a date by the loop body belongs to the location. -/
theorem processDate_locationId (env : Env) (loc : WeatherLocation)
    (city : String) (country : Option String) (current : Int) (db : DB) :
    (processDate env loc city country current db).1.locationId = loc.id := by
  unfold processDate
  cases h : Crud.get_info_by_loc_date db loc.id current with
  | none => simp [Crud.create_info]
  | some info =>
    have hp := List.find?_some h
    simp only [Bool.and_eq_true, beq_iff_eq] at hp
    simpa using hp.1

/-- The loop body only ever appends to the info table, never fills `rawData`
of an appended row, and leaves the location table and its counter alone. -/
theorem processDate_db (env : Env) (loc : WeatherLocation) (city : String)
    (country : Option String) (current : Int) (db : DB) :
    ∃ tail, (processDate env loc city country current db).2.1.infos = db.infos ++ tail
      ∧ (∀ x ∈ tail, x.rawData = none)
      ∧ (processDate env loc city country current db).2.1.locations = db.locations
      ∧ (processDate env loc city country current db).2.1.nextLocId = db.nextLocId := by
  unfold processDate
  cases h : Crud.get_info_by_loc_date db loc.id current with
  | none =>
    by_cases ht : current = env.today
    · exact ⟨[⟨db.nextInfoId, loc.id, current,
        (env.get_weather_by_city city country).mainTemp,
        (env.get_weather_by_city city country).weatherDescription, none⟩],
        by simp [h, ht, Crud.create_info]⟩
    · exact ⟨[⟨db.nextInfoId, loc.id, current,
        (env.get_forecast_by_date_and_city current city country).mainTemp,
        (env.get_forecast_by_date_and_city current city country).weatherDescription, none⟩],
        by simp [h, ht, Crud.create_info]⟩
  | some info => exact ⟨[], by simp⟩

/-- After the loop body has processed a date, the store holds exactly the
returned row for that (location, date) pair. -/
theorem processDate_find (env : Env) (loc : WeatherLocation) (city : String)
    (country : Option String) (current : Int) (db : DB) :
    Crud.get_info_by_loc_date (processDate env loc city country current db).2.1
      loc.id current = some (processDate env loc city country current db).1 := by
  unfold processDate
  cases h : Crud.get_info_by_loc_date db loc.id current with
  | none =>
    unfold Crud.get_info_by_loc_date at h ⊢
    simp only [Crud.create_info]
    rw [List.find?_append, h]
    simp
  | some info => exact h

/-- A lookup that succeeds keeps succeeding with the same row after more rows
are appended to the info table. -/
theorem get_info_mono (db1 db2 : DB) (locationId : Nat) (d : Int)
    (x : WeatherInfo) (tail : List WeatherInfo)
    (hext : db2.infos = db1.infos ++ tail)
    (h : Crud.get_info_by_loc_date db1 locationId d = some x) :
    Crud.get_info_by_loc_date db2 locationId d = some x := by
  unfold Crud.get_info_by_loc_date at h ⊢
  rw [hext, List.find?_append, h]
  rfl

/-- A location lookup that succeeds keeps succeeding with the same row after
more rows are appended to the location table. -/
theorem get_location_mono (db1 db2 : DB) (city : String)
    (country : Option String) (x : WeatherLocation)
    (tail : List WeatherLocation)
    (hext : db2.locations = db1.locations ++ tail)
    (h : Crud.get_location_by_city db1 city country = some x) :
    Crud.get_location_by_city db2 city country = some x := by
  unfold Crud.get_location_by_city at h ⊢
  rw [hext, List.find?_append, h]
  rfl

/-- The ingestion loop only ever appends to the info table, never fills
`rawData` of an appended row, and leaves the location table and its counter
alone. -/
theorem ingestLoop_db (env : Env) (loc : WeatherLocation) (city : String)
    (country : Option String) :
    ∀ (fuel : Nat) (current endD : Int) (db : DB),
    ∃ tail, (ingestLoop env loc city country fuel current endD db).2.1.infos = db.infos ++ tail
      ∧ (∀ x ∈ tail, x.rawData = none)
      ∧ (ingestLoop env loc city country fuel current endD db).2.1.locations = db.locations
      ∧ (ingestLoop env loc city country fuel current endD db).2.1.nextLocId = db.nextLocId := by
  intro fuel
  induction fuel with
  | zero => intro current endD db; exact ⟨[], by simp [ingestLoop]⟩
  | succ n ih =>
    intro current endD db
    by_cases hg : current > endD
    · exact ⟨[], by simp [ingestLoop, hg]⟩
    · obtain ⟨t1, h1, hraw1, hl1, hn1⟩ := processDate_db env loc city country current db
      obtain ⟨t2, h2, hraw2, hl2, hn2⟩ :=
        ih (current + 1) endD (processDate env loc city country current db).2.1
      refine ⟨t1 ++ t2, ?_, ?_, ?_, ?_⟩
      · simp only [ingestLoop, if_neg hg]
        rw [h2, h1, List.append_assoc]
      · intro x hx
        rcases List.mem_append.mp hx with hx | hx
        · exact hraw1 x hx
        · exact hraw2 x hx
      · simp only [ingestLoop, if_neg hg]
        rw [hl2, hl1]
      · simp only [ingestLoop, if_neg hg]
        rw [hn2, hn1]

end Lemmas

section Lemmas2

/-- On a cache hit the loop body returns the stored row unchanged, changes no
state and makes no provider call. -/
theorem processDate_cached (env : Env) (loc : WeatherLocation) (city : String)
    (country : Option String) (current : Int) (db : DB) (info : WeatherInfo)
    (h : Crud.get_info_by_loc_date db loc.id current = some info) :
    processDate env loc city country current db = (info, db, []) := by
  unfold processDate
  rw [h]

/-- Unfolding equation for one iteration of the ingestion loop when the guard
`current <= end` holds. -/
theorem ingestLoop_succ (env : Env) (loc : WeatherLocation) (city : String)
    (country : Option String) (n : Nat) (current endD : Int) (db : DB)
    (hg : ¬ current > endD) :
    ingestLoop env loc city country (n + 1) current endD db =
      ((processDate env loc city country current db).1 ::
        (ingestLoop env loc city country n (current + 1) endD
          (processDate env loc city country current db).2.1).1,
       (ingestLoop env loc city country n (current + 1) endD
          (processDate env loc city country current db).2.1).2.1,
       (processDate env loc city country current db).2.2 ++
        (ingestLoop env loc city country n (current + 1) endD
          (processDate env loc city country current db).2.1).2.2) := by
  simp only [ingestLoop, if_neg hg]

/-- Re-running the ingestion loop on the state it produced returns the same
rows and the same state, performing no provider call. -/
theorem ingestLoop_idem (env : Env) (loc : WeatherLocation) (city : String)
    (country : Option String) :
    ∀ (fuel : Nat) (current endD : Int) (db : DB),
    ingestLoop env loc city country fuel current endD
        (ingestLoop env loc city country fuel current endD db).2.1 =
      ((ingestLoop env loc city country fuel current endD db).1,
       (ingestLoop env loc city country fuel current endD db).2.1, []) := by
  intro fuel
  induction fuel with
  | zero => intro current endD db; simp [ingestLoop]
  | succ n ih =>
    intro current endD db
    by_cases hg : current > endD
    · simp [ingestLoop, hg]
    · have hfind : Crud.get_info_by_loc_date
          (ingestLoop env loc city country n (current + 1) endD
            (processDate env loc city country current db).2.1).2.1 loc.id current
          = some (processDate env loc city country current db).1 := by
        obtain ⟨tail, hext, -, -, -⟩ := ingestLoop_db env loc city country n
          (current + 1) endD (processDate env loc city country current db).2.1
        exact get_info_mono _ _ _ _ _ tail hext
          (processDate_find env loc city country current db)
      have hcache := processDate_cached env loc city country current _ _ hfind
      rw [ingestLoop_succ env loc city country n current endD db hg]
      show ingestLoop env loc city country (n + 1) current endD
          (ingestLoop env loc city country n (current + 1) endD
            (processDate env loc city country current db).2.1).2.1 = _
      rw [ingestLoop_succ env loc city country n current endD _ hg, hcache]
      have h2 := ih (current + 1) endD (processDate env loc city country current db).2.1
      show ((processDate env loc city country current db).1 ::
          (ingestLoop env loc city country n (current + 1) endD
            (ingestLoop env loc city country n (current + 1) endD
              (processDate env loc city country current db).2.1).2.1).1, _, _) = _
      rw [h2]
      rfl

/-- With the exact iteration budget the ingestion loop returns one row per
date: the list has length `fuel` and the row at index `i` carries date
`current + i`. -/
theorem ingestLoop_dates (env : Env) (loc : WeatherLocation) (city : String)
    (country : Option String) :
    ∀ (fuel : Nat) (current endD : Int) (db : DB),
      fuel = (endD + 1 - current).toNat →
      (ingestLoop env loc city country fuel current endD db).1.length = fuel ∧
      ∀ i (hi : i < (ingestLoop env loc city country fuel current endD db).1.length),
        ((ingestLoop env loc city country fuel current endD db).1.get ⟨i, hi⟩).date
          = current + i := by
  intro fuel
  induction fuel with
  | zero =>
    intro current endD db hf
    refine ⟨by simp [ingestLoop], ?_⟩
    intro i hi
    simp [ingestLoop] at hi
  | succ n ih =>
    intro current endD db hf
    have hg : ¬ current > endD := by omega
    have hn : n = (endD + 1 - (current + 1)).toNat := by omega
    obtain ⟨hlen, hdates⟩ :=
      ih (current + 1) endD (processDate env loc city country current db).2.1 hn
    rw [ingestLoop_succ env loc city country n current endD db hg]
    refine ⟨by simpa using hlen, ?_⟩
    intro i hi
    cases i with
    | zero => simpa using processDate_date env loc city country current db
    | succ j =>
      have hj : j < (ingestLoop env loc city country n (current + 1) endD
          (processDate env loc city country current db).2.1).1.length := by
        simpa using hi
      have hd := hdates j hj
      simp only [List.get_cons_succ]
      rw [hd]
      push_cast
      ring

end Lemmas2

/-- Freshly created location rows are found by a subsequent (city, country)
lookup when no earlier row matched. -/
theorem get_location_after_create (db : DB) (c : String)
    (country : Option String) (lat lon : Int)
    (h : Crud.get_location_by_city db c country = none) :
    Crud.get_location_by_city (Crud.create_location db c country lat lon).2
        c country
      = some (Crud.create_location db c country lat lon).1 := by
  unfold Crud.get_location_by_city Crud.create_location
  unfold Crud.get_location_by_city at h
  rw [List.find?_append, h]
  simp

/-- C7: create-location with a non-empty city fails with the duplicate-location
conflict error and persists nothing when a location with the same
(city, country) already exists; otherwise it persists and returns the new row,
and an immediately repeated create with the same (city, country) fails with
the conflict error. -/
theorem create_location_conflict_on_duplicate (env : Env) (p : LocPayload)
    (db : DB) (c : String) (hc : p.city = some c) (hne : c ≠ "") :
    (∀ l, Crud.get_location_by_city db c p.country = some l →
      (create_location env p db).out = .error ⟨400, "Location already exists"⟩ ∧
      (create_location env p db).db = db) ∧
    (Crud.get_location_by_city db c p.country = none →
      ∃ loc, (create_location env p db).out = .ok loc ∧
        (create_location env p db).db.locations = db.locations ++ [loc] ∧
        loc.city = c ∧ loc.country = p.country ∧
        (create_location env p (create_location env p db).db).out =
          .error ⟨400, "Location already exists"⟩) := by
  constructor
  · intro l hl
    simp [create_location, truthyStr, hc, hne, hl]
  · intro hl
    by_cases hb : (!(truthyNum p.lat) || !(truthyNum p.lon)) = true
    · refine ⟨(Crud.create_location db c p.country
        (env.get_weather_by_city c p.country).coordLat
        (env.get_weather_by_city c p.country).coordLon).1, ?_, ?_, ?_, ?_, ?_⟩
      · simp [create_location, truthyStr, hc, hne, hl, hb]
      · simp [create_location, truthyStr, hc, hne, hl, hb, Crud.create_location]
      · simp [Crud.create_location]
      · simp [Crud.create_location]
      · have hdb : (create_location env p db).db =
            (Crud.create_location db c p.country
              (env.get_weather_by_city c p.country).coordLat
              (env.get_weather_by_city c p.country).coordLon).2 := by
          simp [create_location, truthyStr, hc, hne, hl, hb]
        rw [hdb]
        have hfound := get_location_after_create db c p.country
          (env.get_weather_by_city c p.country).coordLat
          (env.get_weather_by_city c p.country).coordLon hl
        simp [create_location, truthyStr, hc, hne, hfound]
    · refine ⟨(Crud.create_location db c p.country
        (p.lat.getD 0) (p.lon.getD 0)).1, ?_, ?_, ?_, ?_, ?_⟩
      · simp [create_location, truthyStr, hc, hne, hl, hb]
      · simp [create_location, truthyStr, hc, hne, hl, hb, Crud.create_location]
      · simp [Crud.create_location]
      · simp [Crud.create_location]
      · have hdb : (create_location env p db).db =
            (Crud.create_location db c p.country
              (p.lat.getD 0) (p.lon.getD 0)).2 := by
          simp [create_location, truthyStr, hc, hne, hl, hb]
        rw [hdb]
        have hfound := get_location_after_create db c p.country
          (p.lat.getD 0) (p.lon.getD 0) hl
        simp [create_location, truthyStr, hc, hne, hfound]

/-- C7 witness: creating London in the empty store succeeds and doing it again
fails with the duplicate-location error. -/
theorem create_location_conflict_on_duplicate_witness :
    ∃ loc, (create_location envLondon ⟨some "London", none, none, none⟩ DB.empty).out
        = .ok loc ∧
      (create_location envLondon ⟨some "London", none, none, none⟩
        (create_location envLondon ⟨some "London", none, none, none⟩ DB.empty).db).out
        = .error ⟨400, "Location already exists"⟩ := by
  obtain ⟨loc, h1, -, -, -, h2⟩ :=
    (create_location_conflict_on_duplicate envLondon
      ⟨some "London", none, none, none⟩ DB.empty "London" rfl
      (by decide)).2 rfl
  exact ⟨loc, h1, h2⟩

/-- C10: in create-location the coordinates of the caller are used only when both
are truthy; when `lat` or `lon` is falsy (absent or zero) a single provider
lookup happens and both stored coordinates come from the provider response,
and when both are truthy no provider lookup happens and the values of the caller
are stored. -/
theorem create_location_coordinates (env : Env) (p : LocPayload) (db : DB)
    (c : String) (hc : p.city = some c) (hne : c ≠ "") :
    ((truthyNum p.lat = false ∨ truthyNum p.lon = false) →
      (create_location env p db).calls = [ProviderCall.currentWeather c p.country] ∧
      ∀ loc, (create_location env p db).out = .ok loc →
        loc.lat = (env.get_weather_by_city c p.country).coordLat ∧
        loc.lon = (env.get_weather_by_city c p.country).coordLon) ∧
    ((truthyNum p.lat = true ∧ truthyNum p.lon = true) →
      (create_location env p db).calls = [] ∧
      ∀ loc, (create_location env p db).out = .ok loc →
        loc.lat = p.lat.getD 0 ∧ loc.lon = p.lon.getD 0) := by
  constructor
  · intro hfal
    have hb : (!(truthyNum p.lat) || !(truthyNum p.lon)) = true := by
      rcases hfal with h | h <;> simp [h]
    constructor
    · cases hmatch : Crud.get_location_by_city db c p.country <;>
        simp [create_location, truthyStr, hc, hne, hb, hmatch]
    · intro loc hloc
      cases hmatch : Crud.get_location_by_city db c p.country with
      | none =>
        simp [create_location, truthyStr, hc, hne, hb, hmatch,
          Crud.create_location] at hloc
        rw [← hloc]
        exact ⟨rfl, rfl⟩
      | some l =>
        simp [create_location, truthyStr, hc, hne, hb, hmatch] at hloc
  · intro ⟨hla, hlo⟩
    have hb : (!(truthyNum p.lat) || !(truthyNum p.lon)) = false := by
      simp [hla, hlo]
    constructor
    · cases hmatch : Crud.get_location_by_city db c p.country <;>
        simp [create_location, truthyStr, hc, hne, hb, hmatch]
    · intro loc hloc
      cases hmatch : Crud.get_location_by_city db c p.country with
      | none =>
        simp [create_location, truthyStr, hc, hne, hb, hmatch,
          Crud.create_location] at hloc
        rw [← hloc]
        exact ⟨rfl, rfl⟩
      | some l =>
        simp [create_location, truthyStr, hc, hne, hb, hmatch] at hloc

/-- C10 witness: creating Paris with a zero latitude and a nonzero longitude
triggers the provider lookup and stores the provider coordinates, discarding
the longitude supplied by the caller. -/
theorem create_location_coordinates_witness :
    (create_location envLondon ⟨some "Paris", none, some 0, some 7⟩ DB.empty).calls
      = [ProviderCall.currentWeather "Paris" none] ∧
    ∀ loc, (create_location envLondon ⟨some "Paris", none, some 0, some 7⟩ DB.empty).out
        = .ok loc → loc.lat = 51 ∧ loc.lon = 0 := by
  have h := (create_location_coordinates envLondon
    ⟨some "Paris", none, some 0, some 7⟩ DB.empty "Paris" rfl (by decide)).1
    (Or.inl (by decide))
  exact ⟨h.1, fun loc hl => h.2 loc hl⟩

/-- C8: the weather-info partial update leaves every field that the payload
omits at its previous value (identifier, location, date always; temperature,
description and raw data when omitted), applies the named fields, and fails
with 404 changing nothing when the identifier does not resolve. -/
theorem update_info_frame (db : DB) (infoId : Nat) (updates : InfoUpdates) :
    (∀ info, Crud.get_info db infoId = some info →
      ∃ u, (update_info db infoId updates).out = .ok u ∧
        u.id = info.id ∧ u.locationId = info.locationId ∧ u.date = info.date ∧
        (updates.temperature = none → u.temperature = info.temperature) ∧
        (updates.weatherDescription = none →
          u.weatherDescription = info.weatherDescription) ∧
        (updates.rawData = none → u.rawData = info.rawData) ∧
        (∀ t, updates.temperature = some t → u.temperature = t) ∧
        (∀ d, updates.weatherDescription = some d → u.weatherDescription = d)) ∧
    (Crud.get_info db infoId = none →
      (update_info db infoId updates).out = .error ⟨404, "Weather info not found"⟩ ∧
      (update_info db infoId updates).db = db) := by
  constructor
  · intro info hfind
    unfold Crud.get_info at hfind
    refine ⟨⟨info.id, info.locationId, info.date,
      updates.temperature.getD info.temperature,
      updates.weatherDescription.getD info.weatherDescription,
      match updates.rawData with
      | some v => some v
      | none => info.rawData⟩, ?_, rfl, rfl, rfl, ?_, ?_, ?_, ?_, ?_⟩
    · simp [update_info, Crud.update_info, hfind]
    · intro h; rw [h]; rfl
    · intro h; rw [h]; rfl
    · intro h; rw [h]
    · intro t h; rw [h]; rfl
    · intro d h; rw [h]; rfl
  · intro hfind
    unfold Crud.get_info at hfind
    constructor
    · simp [update_info, Crud.update_info, hfind]
    · simp [update_info, Crud.update_info, hfind]

/-- C8 witness: updating only the temperature of the single stored row leaves
its description unchanged while the new temperature is applied, and an unknown
identifier yields 404. -/
theorem update_info_frame_witness :
    (∃ u, (update_info ⟨[], [⟨1, 1, 0, 15, "sunny", none⟩], 2, 2⟩ 1
        ⟨some 99, none, none⟩).out = .ok u ∧
      u.weatherDescription = "sunny" ∧ u.temperature = 99) ∧
    (update_info ⟨[], [⟨1, 1, 0, 15, "sunny", none⟩], 2, 2⟩ 7
        ⟨some 99, none, none⟩).out = .error ⟨404, "Weather info not found"⟩ := by
  constructor
  · obtain ⟨u, hout, -, -, -, -, hdesc, -, htemp, -⟩ :=
      (update_info_frame ⟨[], [⟨1, 1, 0, 15, "sunny", none⟩], 2, 2⟩ 1
        ⟨some 99, none, none⟩).1 ⟨1, 1, 0, 15, "sunny", none⟩ rfl
    exact ⟨u, hout, hdesc rfl, htemp 99 rfl⟩
  · exact ((update_info_frame ⟨[], [⟨1, 1, 0, 15, "sunny", none⟩], 2, 2⟩ 7
      ⟨some 99, none, none⟩).2 rfl).1

/-- C3: for a date with no stored row, the loop body branches on equality with
the current date: today goes to the current-weather operation, any other date
to the forecast operation for that date; the provider temperature and
description are stored in the new row, which is appended for that
(location, date). -/
theorem fetch_strategy_branches (env : Env) (loc : WeatherLocation)
    (city : String) (country : Option String) (d : Int) (db : DB)
    (h : Crud.get_info_by_loc_date db loc.id d = none) :
    (d = env.today →
      (processDate env loc city country d db).2.2
        = [ProviderCall.currentWeather city country] ∧
      (processDate env loc city country d db).1.temperature
        = (env.get_weather_by_city city country).mainTemp ∧
      (processDate env loc city country d db).1.weatherDescription
        = (env.get_weather_by_city city country).weatherDescription) ∧
    (d ≠ env.today →
      (processDate env loc city country d db).2.2
        = [ProviderCall.forecast d city country] ∧
      (processDate env loc city country d db).1.temperature
        = (env.get_forecast_by_date_and_city d city country).mainTemp ∧
      (processDate env loc city country d db).1.weatherDescription
        = (env.get_forecast_by_date_and_city d city country).weatherDescription) ∧
    (processDate env loc city country d db).2.1.infos
      = db.infos ++ [(processDate env loc city country d db).1] ∧
    (processDate env loc city country d db).1.date = d ∧
    (processDate env loc city country d db).1.locationId = loc.id := by
  refine ⟨?_, ?_, ?_, processDate_date env loc city country d db,
    processDate_locationId env loc city country d db⟩
  · intro ht
    unfold processDate
    rw [h]
    simp [ht, Crud.create_info]
  · intro ht
    unfold processDate
    rw [h]
    simp [ht, Crud.create_info]
  · unfold processDate
    rw [h]
    by_cases ht : d = env.today <;> simp [ht, Crud.create_info]

/-- C3 witness: processing today (day 0) against the empty store calls the
current-weather operation and stores its temperature and description. -/
theorem fetch_strategy_branches_witness :
    Crud.get_info_by_loc_date DB.empty 1 0 = none ∧
    (processDate envLondon ⟨1, "London", none, 51, 0⟩ "London" none 0 DB.empty).2.2
      = [ProviderCall.currentWeather "London" none] ∧
    (processDate envLondon ⟨1, "London", none, 51, 0⟩ "London" none 0 DB.empty).1.temperature
      = 15 := by
  refine ⟨rfl, ?_⟩
  have h := ((fetch_strategy_branches envLondon ⟨1, "London", none, 51, 0⟩
    "London" none 0 DB.empty rfl).1) rfl
  exact ⟨h.1, h.2.1⟩

/-- Exhaustive case split on the ingestion endpoint: either some validation
step rejects the request, returning an error with the store untouched and no
provider call, or every validation step passes and the endpoint runs the
post-validation body on the parsed dates. -/
theorem create_info_split (env : Env) (input : InfoPayload) (db : DB) :
    (∃ e, create_info env input db = ⟨.error e, db, []⟩) ∨
    (∃ s endD, (!(truthyStr input.city) || !(truthyStr input.start_date)
        || !(truthyStr input.end_date)) = false ∧
      env.parseDate (input.start_date.getD "") = some s ∧
      env.parseDate (input.end_date.getD "") = some endD ∧
      ¬ s > endD ∧ ¬(s < env.today ∨ endD < env.today) ∧
      ¬(s > env.today + 5 ∨ endD > env.today + 5) ∧
      create_info env input db
        = ingestBody env (input.city.getD "") input.country s endD db) := by
  by_cases h1 : (!(truthyStr input.city) || !(truthyStr input.start_date)
      || !(truthyStr input.end_date)) = true
  · exact Or.inl ⟨⟨400, "city, start_date, and end_date are required"⟩,
      by simp [create_info, h1]⟩
  · have h1' : (!(truthyStr input.city) || !(truthyStr input.start_date)
        || !(truthyStr input.end_date)) = false := by simpa using h1
    cases hs : env.parseDate (input.start_date.getD "") with
    | none => exact Or.inl ⟨⟨400, "Invalid date format. Use YYYY-MM-DD"⟩,
        by simp [create_info, h1', hs]⟩
    | some s =>
      cases he : env.parseDate (input.end_date.getD "") with
      | none => exact Or.inl ⟨⟨400, "Invalid date format. Use YYYY-MM-DD"⟩,
          by simp [create_info, h1', hs, he]⟩
      | some endD =>
        by_cases h2 : s > endD
        · exact Or.inl ⟨⟨400, "start_date must be before end_date"⟩,
            by simp [create_info, h1', hs, he, h2]⟩
        · by_cases h3 : s < env.today ∨ endD < env.today
          · exact Or.inl ⟨⟨400, "Historical data is not supported in free OpenWeather API"⟩,
              by simp [create_info, h1', hs, he, h2, h3]⟩
          · by_cases h4 : s > env.today + 5 ∨ endD > env.today + 5
            · exact Or.inl ⟨⟨400, "Max 5 days forecast supported in free OpenWeather API"⟩,
                by simp [create_info, h1', hs, he, h2, h3, h4]⟩
            · exact Or.inr ⟨s, endD, h1', rfl, rfl, h2, h3, h4,
                by simp [create_info, h1', hs, he, h2, h3, h4]⟩

/-- The post-validation ingestion body only appends to the info table, and
every appended row has an empty raw-data slot. -/
theorem ingestBody_infos (env : Env) (c : String) (country : Option String)
    (s endD : Int) (db : DB) :
    ∃ new, (ingestBody env c country s endD db).db.infos = db.infos ++ new ∧
      ∀ x ∈ new, x.rawData = none := by
  unfold ingestBody
  cases hm : Crud.get_location_by_city db c country with
  | some l =>
    obtain ⟨tail, hext, hraw, -, -⟩ := ingestLoop_db env l c country
      (endD + 1 - s).toNat s endD db
    exact ⟨tail, hext, hraw⟩
  | none =>
    obtain ⟨tail, hext, hraw, -, -⟩ := ingestLoop_db env
      (Crud.create_location db c country
        (env.get_weather_by_city c country).coordLat
        (env.get_weather_by_city c country).coordLon).1 c country
      (endD + 1 - s).toNat s endD
      (Crud.create_location db c country
        (env.get_weather_by_city c country).coordLat
        (env.get_weather_by_city c country).coordLon).2
    refine ⟨tail, ?_, hraw⟩
    simpa [Crud.create_location] using hext

/-- C9: ingestion never fills the raw-data slot: whatever the request and the
store, the rows the ingestion endpoint adds to the info table all have
`rawData = none` (the reused rows are the ones already present). -/
theorem create_info_rawData_never_populated (env : Env) (input : InfoPayload)
    (db : DB) :
    ∃ new, (create_info env input db).db.infos = db.infos ++ new ∧
      ∀ x ∈ new, x.rawData = none := by
  rcases create_info_split env input db with ⟨e, hrun⟩ | ⟨s, endD, -, -, -, -, -, -, hrun⟩
  · exact ⟨[], by rw [hrun]; simp, by simp⟩
  · rw [hrun]
    exact ingestBody_infos env (input.city.getD "") input.country s endD db

/-- C1: a fully valid ingestion request (fields present, dates parsing, start
not after end, both within the window from today to today plus five days)
returns one row per calendar date of the inclusive range in ascending order,
so the response has length (end - start) + 1 and the row at index i carries
date start + i. -/
theorem create_info_one_row_per_date (env : Env) (input : InfoPayload)
    (db : DB) (s e : Int)
    (hc : truthyStr input.city = true)
    (hsD : truthyStr input.start_date = true)
    (heD : truthyStr input.end_date = true)
    (hs : env.parseDate (input.start_date.getD "") = some s)
    (he : env.parseDate (input.end_date.getD "") = some e)
    (hle : s ≤ e) (hlo : env.today ≤ s) (hhi : e ≤ env.today + 5) :
    ∃ l, (create_info env input db).out = .ok l ∧
      l.length = (e - s).toNat + 1 ∧
      ∀ i (hi : i < l.length), (l.get ⟨i, hi⟩).date = s + i := by
  have hb : create_info env input db
      = ingestBody env (input.city.getD "") input.country s e db := by
    have h1' : (!(truthyStr input.city) || !(truthyStr input.start_date)
        || !(truthyStr input.end_date)) = false := by simp [hc, hsD, heD]
    have h2 : ¬ s > e := by omega
    have h3 : ¬(s < env.today ∨ e < env.today) := by omega
    have h4 : ¬(s > env.today + 5 ∨ e > env.today + 5) := by omega
    simp [create_info, h1', hs, he, h2, h3, h4]
  rw [hb]
  unfold ingestBody
  have hfe : (e - s).toNat + 1 = (e + 1 - s).toNat := by omega
  cases hm : Crud.get_location_by_city db (input.city.getD "") input.country with
  | some l =>
    obtain ⟨hlen, hdates⟩ := ingestLoop_dates env l (input.city.getD "")
      input.country (e + 1 - s).toNat s e db rfl
    exact ⟨_, rfl, by rw [hlen, hfe], hdates⟩
  | none =>
    obtain ⟨hlen, hdates⟩ := ingestLoop_dates env
      (Crud.create_location db (input.city.getD "") input.country
        (env.get_weather_by_city (input.city.getD "") input.country).coordLat
        (env.get_weather_by_city (input.city.getD "") input.country).coordLon).1
      (input.city.getD "") input.country (e + 1 - s).toNat s e
      (Crud.create_location db (input.city.getD "") input.country
        (env.get_weather_by_city (input.city.getD "") input.country).coordLat
        (env.get_weather_by_city (input.city.getD "") input.country).coordLon).2 rfl
    exact ⟨_, rfl, by rw [hlen, hfe], hdates⟩

/-- C1 witness: ingesting the full window from today to today plus five days
into the empty store yields six rows. -/
theorem create_info_one_row_per_date_witness :
    ∃ l, (create_info envLondon
        ⟨some "London", none, some "2025-08-01", some "2025-08-06"⟩
        DB.empty).out = .ok l ∧ l.length = 6 := by
  obtain ⟨l, hout, hlen, -⟩ := create_info_one_row_per_date envLondon
    ⟨some "London", none, some "2025-08-01", some "2025-08-06"⟩
    DB.empty 0 5 rfl rfl rfl rfl rfl (by decide) (by decide) (by decide)
  exact ⟨l, hout, by rw [hlen]; rfl⟩

/-- C4: once the fields are present, the dates parse and start is not after
end, the endpoint rejects any date strictly before today with the historical
error, then any date beyond today plus five days with the horizon error, and
otherwise both window checks pass and the request succeeds; both checks apply
to the start and to the end date. -/
theorem create_info_date_window (env : Env) (input : InfoPayload) (db : DB)
    (s e : Int)
    (hc : truthyStr input.city = true)
    (hsD : truthyStr input.start_date = true)
    (heD : truthyStr input.end_date = true)
    (hs : env.parseDate (input.start_date.getD "") = some s)
    (he : env.parseDate (input.end_date.getD "") = some e)
    (hle : s ≤ e) :
    ((s < env.today ∨ e < env.today) →
      create_info env input db =
        ⟨.error ⟨400, "Historical data is not supported in free OpenWeather API"⟩, db, []⟩) ∧
    (¬(s < env.today ∨ e < env.today) →
      (s > env.today + 5 ∨ e > env.today + 5) →
      create_info env input db =
        ⟨.error ⟨400, "Max 5 days forecast supported in free OpenWeather API"⟩, db, []⟩) ∧
    (¬(s < env.today ∨ e < env.today) →
      ¬(s > env.today + 5 ∨ e > env.today + 5) →
      ∃ l, (create_info env input db).out = .ok l) := by
  have h1' : (!(truthyStr input.city) || !(truthyStr input.start_date)
      || !(truthyStr input.end_date)) = false := by simp [hc, hsD, heD]
  have h2 : ¬ s > e := by omega
  refine ⟨?_, ?_, ?_⟩
  · intro h3
    simp [create_info, h1', hs, he, h2, h3]
  · intro h3 h4
    simp [create_info, h1', hs, he, h2, h3, h4]
  · intro h3 h4
    have hb : create_info env input db
        = ingestBody env (input.city.getD "") input.country s e db := by
      simp [create_info, h1', hs, he, h2, h3, h4]
    rw [hb]
    unfold ingestBody
    cases hm : Crud.get_location_by_city db (input.city.getD "") input.country with
    | some l => exact ⟨_, rfl⟩
    | none => exact ⟨_, rfl⟩

/-- C4 witness: with yesterday as start date the request is rejected with the
historical-data error and the store is untouched. -/
theorem create_info_date_window_witness :
    create_info envLondon
        ⟨some "London", none, some "2025-07-31", some "2025-08-01"⟩ DB.empty =
      ⟨.error ⟨400, "Historical data is not supported in free OpenWeather API"⟩,
        DB.empty, []⟩ := by
  exact (create_info_date_window envLondon
    ⟨some "London", none, some "2025-07-31", some "2025-08-01"⟩
    DB.empty (-1) 0 rfl rfl rfl rfl rfl (by decide)).1 (Or.inl (by decide))

/-- C5: when the parsed start date is strictly after the parsed end date the
ingestion request fails with a 400 validation error, the store is untouched
and no provider call is made. -/
theorem create_info_rejects_inverted_range (env : Env) (input : InfoPayload)
    (db : DB) (s e : Int)
    (hs : env.parseDate (input.start_date.getD "") = some s)
    (he : env.parseDate (input.end_date.getD "") = some e)
    (hgt : s > e) :
    (∃ err, (create_info env input db).out = .error err ∧ err.status = 400) ∧
    (create_info env input db).db = db ∧
    (create_info env input db).calls = [] := by
  by_cases h1 : (!(truthyStr input.city) || !(truthyStr input.start_date)
      || !(truthyStr input.end_date)) = true
  · refine ⟨⟨⟨400, "city, start_date, and end_date are required"⟩, ?_, rfl⟩, ?_, ?_⟩ <;>
      simp [create_info, h1]
  · have h1' : (!(truthyStr input.city) || !(truthyStr input.start_date)
        || !(truthyStr input.end_date)) = false := by simpa using h1
    refine ⟨⟨⟨400, "start_date must be before end_date"⟩, ?_, rfl⟩, ?_, ?_⟩ <;>
      simp [create_info, h1', hs, he, hgt]

/-- C5 witness: start after end is rejected with a 400 error, no store change
and no provider call. -/
theorem create_info_rejects_inverted_range_witness :
    (∃ err, (create_info envLondon
        ⟨some "London", none, some "2025-08-03", some "2025-08-02"⟩
        DB.empty).out = .error err ∧ err.status = 400) ∧
    (create_info envLondon
        ⟨some "London", none, some "2025-08-03", some "2025-08-02"⟩
        DB.empty).db = DB.empty ∧
    (create_info envLondon
        ⟨some "London", none, some "2025-08-03", some "2025-08-02"⟩
        DB.empty).calls = [] :=
  create_info_rejects_inverted_range envLondon
    ⟨some "London", none, some "2025-08-03", some "2025-08-02"⟩
    DB.empty 2 1 rfl rfl (by decide)

/-- The post-validation ingestion body always produces a successful
response. -/
theorem ingestBody_out_ok (env : Env) (c : String) (country : Option String)
    (s endD : Int) (db : DB) :
    ∃ lst, (ingestBody env c country s endD db).out = .ok lst := by
  unfold ingestBody
  cases hm : Crud.get_location_by_city db c country with
  | some l => exact ⟨_, rfl⟩
  | none => exact ⟨_, rfl⟩

/-- Location lookups only read the location table. -/
theorem get_location_congr (db1 db2 : DB) (c : String)
    (country : Option String) (h : db2.locations = db1.locations) :
    Crud.get_location_by_city db2 c country
      = Crud.get_location_by_city db1 c country := by
  unfold Crud.get_location_by_city
  rw [h]

/-- Unfolding equation for the ingestion body when the location already
exists. -/
theorem ingestBody_found (env : Env) (c : String) (country : Option String)
    (s endD : Int) (db : DB) (loc : WeatherLocation)
    (hm : Crud.get_location_by_city db c country = some loc) :
    ingestBody env c country s endD db =
      ⟨.ok (ingestLoop env loc c country (endD + 1 - s).toNat s endD db).1,
       (ingestLoop env loc c country (endD + 1 - s).toNat s endD db).2.1,
       (ingestLoop env loc c country (endD + 1 - s).toNat s endD db).2.2⟩ := by
  simp [ingestBody, hm]

/-- Unfolding equation for the ingestion body when the location must first be
created with provider coordinates. -/
theorem ingestBody_created (env : Env) (c : String) (country : Option String)
    (s endD : Int) (db : DB)
    (hm : Crud.get_location_by_city db c country = none) :
    ingestBody env c country s endD db =
      ⟨.ok (ingestLoop env
          (Crud.create_location db c country
            (env.get_weather_by_city c country).coordLat
            (env.get_weather_by_city c country).coordLon).1 c country
          (endD + 1 - s).toNat s endD
          (Crud.create_location db c country
            (env.get_weather_by_city c country).coordLat
            (env.get_weather_by_city c country).coordLon).2).1,
       (ingestLoop env
          (Crud.create_location db c country
            (env.get_weather_by_city c country).coordLat
            (env.get_weather_by_city c country).coordLon).1 c country
          (endD + 1 - s).toNat s endD
          (Crud.create_location db c country
            (env.get_weather_by_city c country).coordLat
            (env.get_weather_by_city c country).coordLon).2).2.1,
       ProviderCall.currentWeather c country ::
        (ingestLoop env
          (Crud.create_location db c country
            (env.get_weather_by_city c country).coordLat
            (env.get_weather_by_city c country).coordLon).1 c country
          (endD + 1 - s).toNat s endD
          (Crud.create_location db c country
            (env.get_weather_by_city c country).coordLat
            (env.get_weather_by_city c country).coordLon).2).2.2⟩ := by
  simp [ingestBody, hm]

/-- Re-running the post-validation ingestion body on the state it produced
returns the same response and the same state, and makes no provider call. -/
theorem ingestBody_idem (env : Env) (c : String) (country : Option String)
    (s endD : Int) (db : DB) :
    ingestBody env c country s endD (ingestBody env c country s endD db).db
      = ⟨(ingestBody env c country s endD db).out,
         (ingestBody env c country s endD db).db, []⟩ := by
  cases hm : Crud.get_location_by_city db c country with
  | some loc =>
    rw [ingestBody_found env c country s endD db loc hm]
    obtain ⟨-, -, hlocs, -⟩ := (ingestLoop_db env loc c country
      (endD + 1 - s).toNat s endD db).choose_spec
    have hm2 : Crud.get_location_by_city
        (ingestLoop env loc c country (endD + 1 - s).toNat s endD db).2.1
        c country = some loc := by
      rw [get_location_congr db _ c country hlocs, hm]
    show ingestBody env c country s endD
      (ingestLoop env loc c country (endD + 1 - s).toNat s endD db).2.1 = _
    rw [ingestBody_found env c country s endD _ loc hm2,
      ingestLoop_idem env loc c country (endD + 1 - s).toNat s endD db]
  | none =>
    rw [ingestBody_created env c country s endD db hm]
    obtain ⟨-, -, hlocs, -⟩ := (ingestLoop_db env
      (Crud.create_location db c country
        (env.get_weather_by_city c country).coordLat
        (env.get_weather_by_city c country).coordLon).1 c country
      (endD + 1 - s).toNat s endD
      (Crud.create_location db c country
        (env.get_weather_by_city c country).coordLat
        (env.get_weather_by_city c country).coordLon).2).choose_spec
    have hm2 : Crud.get_location_by_city
        (ingestLoop env
          (Crud.create_location db c country
            (env.get_weather_by_city c country).coordLat
            (env.get_weather_by_city c country).coordLon).1 c country
          (endD + 1 - s).toNat s endD
          (Crud.create_location db c country
            (env.get_weather_by_city c country).coordLat
            (env.get_weather_by_city c country).coordLon).2).2.1 c country
        = some (Crud.create_location db c country
            (env.get_weather_by_city c country).coordLat
            (env.get_weather_by_city c country).coordLon).1 := by
      rw [get_location_congr _ _ c country hlocs]
      exact get_location_after_create db c country _ _ hm
    show ingestBody env c country s endD
      (ingestLoop env
        (Crud.create_location db c country
          (env.get_weather_by_city c country).coordLat
          (env.get_weather_by_city c country).coordLon).1 c country
        (endD + 1 - s).toNat s endD
        (Crud.create_location db c country
          (env.get_weather_by_city c country).coordLat
          (env.get_weather_by_city c country).coordLon).2).2.1 = _
    rw [ingestBody_found env c country s endD _ _ hm2,
      ingestLoop_idem env
        (Crud.create_location db c country
          (env.get_weather_by_city c country).coordLat
          (env.get_weather_by_city c country).coordLon).1 c country
        (endD + 1 - s).toNat s endD
        (Crud.create_location db c country
          (env.get_weather_by_city c country).coordLat
          (env.get_weather_by_city c country).coordLon).2]

/-- C2: ingestion is idempotent: when a run succeeds, running the identical
request against the state it left behind returns the very same rows, leaves
the store exactly as it was (no new row for any date of the range) and makes
no provider call at all. -/
theorem create_info_idempotent (env : Env) (input : InfoPayload) (db db1 : DB)
    (l : List WeatherInfo) (calls : List ProviderCall)
    (h : create_info env input db = ⟨.ok l, db1, calls⟩) :
    create_info env input db1 = ⟨.ok l, db1, []⟩ := by
  rcases create_info_split env input db with ⟨e, hrun⟩ |
    ⟨s, endD, h1', hsp, hep, h2, h3, h4, hrun⟩
  · rw [hrun] at h
    exact absurd (congrArg RunResult.out h) (by simp)
  · have hrun2 : create_info env input db1
        = ingestBody env (input.city.getD "") input.country s endD db1 := by
      simp [create_info, h1', hsp, hep, h2, h3, h4]
    rw [hrun] at h
    rw [hrun2]
    have hidem := ingestBody_idem env (input.city.getD "") input.country s endD db
    rw [h] at hidem
    simpa using hidem

/-- C2 witness: a concrete successful single-day ingestion re-run on its own
output state returns the same row, the same store and an empty call trace. -/
theorem create_info_idempotent_witness :
    create_info envLondon
        ⟨some "London", none, some "2025-08-01", some "2025-08-01"⟩
        (create_info envLondon
          ⟨some "London", none, some "2025-08-01", some "2025-08-01"⟩
          DB.empty).db
      = ⟨.ok [⟨1, 1, 0, 15, "clear sky", none⟩],
         ⟨[⟨1, "London", none, 51, 0⟩], [⟨1, 1, 0, 15, "clear sky", none⟩], 2, 2⟩,
         []⟩ :=
  create_info_idempotent envLondon
    ⟨some "London", none, some "2025-08-01", some "2025-08-01"⟩
    DB.empty
    ⟨[⟨1, "London", none, 51, 0⟩], [⟨1, 1, 0, 15, "clear sky", none⟩], 2, 2⟩
    [⟨1, 1, 0, 15, "clear sky", none⟩]
    [ProviderCall.currentWeather "London" none, ProviderCall.currentWeather "London" none]
    rfl

/-- A store already holding a London row, used to exhibit the provider call
that create-location makes before its duplicate check. -/
def dbLondon : DB := ⟨[⟨1, "London", none, 51, 0⟩], [], 2, 1⟩

/-- C6 counterexample: a create-location request for a city that already
exists, with no coordinates supplied, is rejected with the duplicate-location
conflict error and yet has already made one provider call — so a request
rejected with a conflict error does trigger a collaborator call, contrary to
the claim. -/
theorem create_location_conflict_calls_provider :
    create_location envLondon ⟨some "London", none, none, none⟩ dbLondon =
      ⟨.error ⟨400, "Location already exists"⟩, dbLondon,
       [ProviderCall.currentWeather "London" none]⟩ := rfl

/-- C6 amended: every rejected request leaves the store untouched; a rejected
ingestion request has made no collaborator call; a rejected create-location
request has made no collaborator call either, except that when a coordinate is
falsy the provider lookup precedes the duplicate check, so a request rejected
with the duplicate-location conflict error may have made that one lookup. -/
theorem validation_before_side_effects (env : Env) :
    (∀ (input : InfoPayload) (db : DB) (e : HTTPError),
      (create_info env input db).out = .error e →
      (create_info env input db).db = db ∧ (create_info env input db).calls = []) ∧
    (∀ (p : LocPayload) (db : DB) (e : HTTPError),
      (create_location env p db).out = .error e →
      (create_location env p db).db = db ∧
      ((create_location env p db).calls = [] ∨
        (e = ⟨400, "Location already exists"⟩ ∧
         (!(truthyNum p.lat) || !(truthyNum p.lon)) = true ∧
         ∃ c, p.city = some c ∧
           (create_location env p db).calls
             = [ProviderCall.currentWeather c p.country]))) := by
  constructor
  · intro input db e herr
    rcases create_info_split env input db with ⟨e2, hrun⟩ |
      ⟨s, endD, -, -, -, -, -, -, hrun⟩
    · rw [hrun]
      exact ⟨rfl, rfl⟩
    · rw [hrun] at herr
      obtain ⟨lst, hok⟩ := ingestBody_out_ok env (input.city.getD "")
        input.country s endD db
      rw [hok] at herr
      exact absurd herr (by simp)
  · intro p db e herr
    by_cases hc : truthyStr p.city = true
    · obtain ⟨c, hpc, hcne⟩ : ∃ c, p.city = some c ∧ c ≠ "" := by
        cases hpc : p.city with
        | none => rw [hpc] at hc; simp [truthyStr] at hc
        | some c =>
          rw [hpc] at hc
          simp [truthyStr] at hc
          exact ⟨c, rfl, hc⟩
      by_cases hb : (!(truthyNum p.lat) || !(truthyNum p.lon)) = true
      · cases hm : Crud.get_location_by_city db c p.country with
        | some l =>
          have hrun : create_location env p db =
              ⟨.error ⟨400, "Location already exists"⟩, db,
               [ProviderCall.currentWeather c p.country]⟩ := by
            simp [create_location, truthyStr, hpc, hcne, hb, hm]
          rw [hrun] at herr ⊢
          refine ⟨rfl, Or.inr ?_⟩
          simp at herr
          exact ⟨herr.symm ▸ rfl, hb, c, hpc, rfl⟩
        | none =>
          have hrun : (create_location env p db).out = .ok
              (Crud.create_location db c p.country
                (env.get_weather_by_city c p.country).coordLat
                (env.get_weather_by_city c p.country).coordLon).1 := by
            simp [create_location, truthyStr, hpc, hcne, hb, hm]
          rw [hrun] at herr
          exact absurd herr (by simp)
      · cases hm : Crud.get_location_by_city db c p.country with
        | some l =>
          have hrun : create_location env p db =
              ⟨.error ⟨400, "Location already exists"⟩, db, []⟩ := by
            have hb' : (!(truthyNum p.lat) || !(truthyNum p.lon)) = false := by
              simpa using hb
            simp [create_location, truthyStr, hpc, hcne, hb', hm]
          rw [hrun]
          exact ⟨rfl, Or.inl rfl⟩
        | none =>
          have hrun : (create_location env p db).out = .ok
              (Crud.create_location db c p.country
                (p.lat.getD 0) (p.lon.getD 0)).1 := by
            have hb' : (!(truthyNum p.lat) || !(truthyNum p.lon)) = false := by
              simpa using hb
            simp [create_location, truthyStr, hpc, hcne, hb', hm]
          rw [hrun] at herr
          exact absurd herr (by simp)
    · have hc' : truthyStr p.city = false := by simpa using hc
      have hrun : create_location env p db =
          ⟨.error ⟨400, "city is required"⟩, db, []⟩ := by
        simp [create_location, hc']
      rw [hrun]
      exact ⟨rfl, Or.inl rfl⟩

/-- C6 amended witness: a rejected ingestion request (missing fields) leaves
the store untouched and makes no provider call. -/
theorem validation_before_side_effects_witness :
    (create_info envLondon ⟨none, none, none, none⟩ DB.empty).db = DB.empty ∧
    (create_info envLondon ⟨none, none, none, none⟩ DB.empty).calls = [] :=
  (validation_before_side_effects envLondon).1 ⟨none, none, none, none⟩
    DB.empty ⟨400, "city, start_date, and end_date are required"⟩ rfl
